import Mathlib

/-!
Shallow embedding of the VeiledChests program (Alloy repository).

Source files:
- src/programs/veiled_chests/src/lib.rs : the on-chain Anchor program
  (play_chest_game, play_chest_game_callback, cancel_game).
- src/encrypted-ixs/src/lib.rs : the confidential FairDraw circuit.

Modelling conventions:
- u64 lamport balances are Nat values below 2 ^ 64.  Raw lamport
  adjustments (the `-=` / `+=` on try_borrow_mut_lamports) abort the
  whole transaction on under/overflow (Solana reverts every state
  change of a failed transaction, and the runtime conserves lamports);
  this abort is the TxError.arithAbort case.  A returned program error
  (ErrorCode) likewise aborts the transaction, so an Except.error
  result carries no post-state: no funds move and no account data is
  written.
- Pubkeys are abstracted as Nat identifiers.
- The Anchor account constraint on CancelGame
  (game_account.player == player.key(), error NotGamePlayer) is checked
  before the instruction body runs, and is the first check in
  cancel_game below.
- Dispatching the MPC computation (queue_computation) and the BLS
  verification of its output are external collaborators; the verified
  callback payload is the VerifiedOutput argument, whose err case is
  a failed verify_output call.
-/

namespace VeiledChests

/-- Modulus of the u64 type used for lamport balances and bet amounts. -/
def U64_MOD : Nat := 2 ^ 64

/-- Minimum bet: 0.01 SOL = 10 000 000 lamports (lib.rs line 75). -/
def MIN_BET : Nat := 10000000

/-- Game status enum (lib.rs GameStatus). -/
inductive GameStatus where
  | none
  | pending
  | completed
  | cancelled
deriving DecidableEq, Repr

/-- The u8 repr values of GameStatus (None = 0, Pending = 1, Completed = 2, Cancelled = 3). -/
def GameStatus.toU8 : GameStatus → Nat
  | .none => 0
  | .pending => 1
  | .completed => 2
  | .cancelled => 3

/-- GameAccount account data (lib.rs lines 272-281). -/
structure GameAccount where
  player : Nat
  bet_amount : Nat
  num_chests : Nat
  status : Nat
  created_at : Int
  computation_offset : Nat
  bump : Nat
deriving DecidableEq, Repr

/-- Program error codes (lib.rs ErrorCode). -/
inductive ErrorCode where
  | AbortedComputation
  | ClusterNotSet
  | InvalidChestCount
  | BetTooSmall
  | GameAlreadyActive
  | GameNotPending
  | GameNotTimedOut
  | Overflow
  | NotGamePlayer
deriving DecidableEq, Repr

/-- Result of a transaction: a program error code, or an arithmetic
abort (u64 under/overflow in a lamport adjustment, which fails the
transaction and reverts it). -/
inductive TxError where
  | code (e : ErrorCode)
  | arithAbort
deriving DecidableEq, Repr

/-- u64 checked_mul (lib.rs line 184). -/
def checked_mul (a b : Nat) : Option Nat :=
  if a * b < U64_MOD then some (a * b) else none

/-- u64 checked_sub (lib.rs line 192). -/
def checked_sub (a b : Nat) : Option Nat :=
  if b ≤ a then some (a - b) else none

/-- Lamport debit: aborts the transaction when the balance is insufficient. -/
def lamports_sub (a b : Nat) : Except TxError Nat :=
  if b ≤ a then .ok (a - b) else .error .arithAbort

/-- Lamport credit: aborts the transaction when the u64 balance would overflow. -/
def lamports_add (a b : Nat) : Except TxError Nat :=
  if a + b < U64_MOD then .ok (a + b) else .error .arithAbort

/-- The mutable accounts touched by the callback instruction: the game
account (data plus its lamport balance, which holds the escrowed bet),
the treasury lamports and the player lamports. -/
structure CallbackAccounts where
  game_account : GameAccount
  game_lamports : Nat
  treasury_lamports : Nat
  player_lamports : Nat
deriving DecidableEq, Repr

/-- Outcome of output.verify_output on the signed MPC output: the
decoded (player_won, winning_chest) pair, or a verification failure. -/
inductive VerifiedOutput where
  | ok (player_won : Bool) (winning_chest : Nat)
  | err
deriving DecidableEq, Repr

/-- GameResultEvent (lib.rs lines 465-473). -/
structure GameResultEvent where
  player : Nat
  player_won : Bool
  winning_chest : Nat
  num_chests : Nat
  bet_amount : Nat
  payout : Nat
deriving DecidableEq, Repr

/-- GameCancelledEvent (lib.rs lines 475-479). -/
structure GameCancelledEvent where
  player : Nat
  bet_amount : Nat
deriving DecidableEq, Repr

/-- play_chest_game_callback (lib.rs lines 157-232): settle a game from
the verified MPC output.  Returns the mutated accounts and the emitted
GameResultEvent, or the error aborting the transaction. -/
def play_chest_game_callback (st : CallbackAccounts) (output : VerifiedOutput) :
    Except TxError (CallbackAccounts × GameResultEvent) :=
  match output with
  | .err => .error (.code .AbortedComputation)
  | .ok player_won winning_chest =>
    if st.game_account.status ≠ GameStatus.pending.toU8 then
      .error (.code .GameNotPending)
    else
      if player_won then
        match checked_mul st.game_account.bet_amount st.game_account.num_chests with
        | Option.none => .error (.code .Overflow)
        | Option.some payout =>
          match lamports_sub st.game_lamports st.game_account.bet_amount with
          | .error e => .error e
          | .ok game_l =>
            match lamports_add st.player_lamports st.game_account.bet_amount with
            | .error e => .error e
            | .ok player_l =>
              match checked_sub payout st.game_account.bet_amount with
              | Option.none => .error (.code .Overflow)
              | Option.some winnings =>
                if 0 < winnings then
                  match lamports_sub st.treasury_lamports winnings with
                  | .error e => .error e
                  | .ok treasury_l =>
                    match lamports_add player_l winnings with
                    | .error e => .error e
                    | .ok player_l2 =>
                      .ok
                        ({ st with
                            game_lamports := game_l
                            player_lamports := player_l2
                            treasury_lamports := treasury_l
                            game_account :=
                              { st.game_account with
                                  status := GameStatus.completed.toU8 } },
                        { player := st.game_account.player, player_won := true,
                          winning_chest := winning_chest,
                          num_chests := st.game_account.num_chests,
                          bet_amount := st.game_account.bet_amount, payout := payout })
                else
                  .ok
                    ({ st with
                        game_lamports := game_l
                        player_lamports := player_l
                        game_account :=
                          { st.game_account with status := GameStatus.completed.toU8 } },
                    { player := st.game_account.player, player_won := true,
                      winning_chest := winning_chest,
                      num_chests := st.game_account.num_chests,
                      bet_amount := st.game_account.bet_amount, payout := payout })
      else
        match lamports_sub st.game_lamports st.game_account.bet_amount with
        | .error e => .error e
        | .ok game_l =>
          match lamports_add st.treasury_lamports st.game_account.bet_amount with
          | .error e => .error e
          | .ok treasury_l =>
            .ok
              ({ st with
                  game_lamports := game_l
                  treasury_lamports := treasury_l
                  game_account :=
                    { st.game_account with status := GameStatus.completed.toU8 } },
              { player := st.game_account.player, player_won := false,
                winning_chest := winning_chest,
                num_chests := st.game_account.num_chests,
                bet_amount := st.game_account.bet_amount, payout := 0 })

/-- The mutable accounts touched by the cancel instruction: the player
account (key and lamports) and the game account (data plus lamports). -/
structure CancelAccounts where
  player : Nat
  player_lamports : Nat
  game_account : GameAccount
  game_lamports : Nat
deriving DecidableEq, Repr

/-- cancel_game (lib.rs lines 235-261) together with the CancelGame
account constraint (line 438): refund a timed-out pending game.  now is
Clock::get().unix_timestamp. -/
def cancel_game (st : CancelAccounts) (now : Int) :
    Except TxError (CancelAccounts × GameCancelledEvent) :=
  if st.game_account.player ≠ st.player then .error (.code .NotGamePlayer)
  else if st.game_account.status ≠ GameStatus.pending.toU8 then
    .error (.code .GameNotPending)
  else if ¬ (now - st.game_account.created_at > 60) then
    .error (.code .GameNotTimedOut)
  else
    match lamports_sub st.game_lamports st.game_account.bet_amount with
    | .error e => .error e
    | .ok game_l =>
      match lamports_add st.player_lamports st.game_account.bet_amount with
      | .error e => .error e
      | .ok player_l =>
        .ok ({ st with
                game_lamports := game_l
                player_lamports := player_l
                game_account :=
                  { st.game_account with status := GameStatus.cancelled.toU8 } },
            { player := st.game_account.player,
              bet_amount := st.game_account.bet_amount })

/-- The mutable accounts touched by the submit instruction. -/
structure SubmitAccounts where
  player : Nat
  player_lamports : Nat
  game_account : GameAccount
  game_lamports : Nat
deriving DecidableEq, Repr

/-- play_chest_game (lib.rs lines 62-154): validate, escrow the bet and
write the fresh pending GameAccount.  The final queue_computation call
dispatches the MPC request to the external cluster and is outside the
modelled state. -/
def play_chest_game (st : SubmitAccounts) (computation_offset : Nat)
    (num_chests : Nat) (bet_amount : Nat) (now : Int) (bump : Nat) :
    Except TxError SubmitAccounts :=
  if ¬ (2 ≤ num_chests ∧ num_chests ≤ 5) then .error (.code .InvalidChestCount)
  else if ¬ (MIN_BET ≤ bet_amount) then .error (.code .BetTooSmall)
  else if ¬ (st.game_account.status = GameStatus.none.toU8 ∨
             st.game_account.status = GameStatus.completed.toU8 ∨
             st.game_account.status = GameStatus.cancelled.toU8) then
    .error (.code .GameAlreadyActive)
  else
    match lamports_sub st.player_lamports bet_amount with
    | .error e => .error e
    | .ok player_l =>
      match lamports_add st.game_lamports bet_amount with
      | .error e => .error e
      | .ok game_l =>
        .ok { player := st.player
              player_lamports := player_l
              game_lamports := game_l
              game_account :=
                { player := st.player, bet_amount := bet_amount,
                  num_chests := num_chests, status := GameStatus.pending.toU8,
                  created_at := now, computation_offset := computation_offset,
                  bump := bump } }

namespace circuits

/-- The FairDraw circuit play_chest_game (src/encrypted-ixs/src/lib.rs
lines 19-46).  player_choice is the decrypted u8 chest choice,
rng_draw the u128 returned by ArcisRNG.gen_integer_in_range (quantified
over all values, covering both the success and the exhausted-attempts
case); the final as-u8 cast is the mod 256.  Returns
(player_won, winning_chest). -/
def play_chest_game (player_choice : Nat) (num_chests : Nat) (rng_draw : Nat) :
    Bool × Nat :=
  let winning_chest := (rng_draw % num_chests) % 256
  (decide (player_choice = winning_chest), winning_chest)

end circuits

/-- Helper: in Nat, b * (c - 1) = b * c - b once 1 ≤ c. -/
theorem mul_pred_eq (b c : Nat) (h : 1 ≤ c) : b * (c - 1) = b * c - b := by
  cases c with
  | zero => exact absurd h (by omega)
  | succ n => simp [Nat.mul_succ]

/-- C1 counterexample: a Pending record with num_chests = 5 and
bet_amount = 2 ^ 62 ≥ MIN_BET satisfies the claim's hypotheses, yet the
winning callback fails with Overflow (checked_mul overflows u64) and
does not complete the game or move funds. -/
theorem c1_counterexample :
    MIN_BET ≤ 2 ^ 62 ∧
    play_chest_game_callback
      { game_account := { player := 7, bet_amount := 2 ^ 62, num_chests := 5,
                          status := 1, created_at := 0, computation_offset := 0, bump := 0 },
        game_lamports := 2 ^ 62, treasury_lamports := 2 ^ 63, player_lamports := 0 }
      (.ok true 0) = .error (.code .Overflow) :=
  ⟨by norm_num [MIN_BET], rfl⟩

/-- C1 (amended): for a Pending record with num_chests in [2,5],
bet_amount ≥ MIN_BET and bet_amount * num_chests below 2 ^ 64 (the
checked multiplication succeeds), provided the escrow holds the bet,
the Treasury covers the net winnings and the player's u64 balance can
absorb the payout (otherwise the transaction aborts with no movement),
a winning callback moves exactly bet_amount from the game escrow to the
player and exactly bet_amount * (num_chests - 1) from the Treasury to
the player (total bet_amount * num_chests) and sets the status to
Completed. -/
theorem c1_win_payout (st : CallbackAccounts) (wc : Nat)
    (hp : st.game_account.status = GameStatus.pending.toU8)
    (h2 : 2 ≤ st.game_account.num_chests) (h5 : st.game_account.num_chests ≤ 5)
    (hb : MIN_BET ≤ st.game_account.bet_amount)
    (hmul : st.game_account.bet_amount * st.game_account.num_chests < U64_MOD)
    (hesc : st.game_account.bet_amount ≤ st.game_lamports)
    (htr : st.game_account.bet_amount * (st.game_account.num_chests - 1) ≤
      st.treasury_lamports)
    (hpl : st.player_lamports + st.game_account.bet_amount * st.game_account.num_chests <
      U64_MOD) :
    play_chest_game_callback st (.ok true wc) =
      .ok ({ st with
              game_lamports := st.game_lamports - st.game_account.bet_amount
              treasury_lamports := st.treasury_lamports -
                st.game_account.bet_amount * (st.game_account.num_chests - 1)
              player_lamports :=
                st.player_lamports + st.game_account.bet_amount * st.game_account.num_chests
              game_account := { st.game_account with status := GameStatus.completed.toU8 } },
          { player := st.game_account.player, player_won := true, winning_chest := wc,
            num_chests := st.game_account.num_chests,
            bet_amount := st.game_account.bet_amount,
            payout := st.game_account.bet_amount * st.game_account.num_chests }) := by
  have hb' : 10000000 ≤ st.game_account.bet_amount := hb
  have hmp : st.game_account.bet_amount * (st.game_account.num_chests - 1) =
      st.game_account.bet_amount * st.game_account.num_chests - st.game_account.bet_amount :=
    mul_pred_eq _ _ (by omega)
  have h2b : st.game_account.bet_amount * 2 ≤
      st.game_account.bet_amount * st.game_account.num_chests :=
    Nat.mul_le_mul (le_refl _) h2
  have hble : st.game_account.bet_amount ≤
      st.game_account.bet_amount * st.game_account.num_chests := by omega
  have hwpos : 0 < st.game_account.bet_amount * st.game_account.num_chests -
      st.game_account.bet_amount := by omega
  have htr' : st.game_account.bet_amount * st.game_account.num_chests -
      st.game_account.bet_amount ≤ st.treasury_lamports := hmp ▸ htr
  have hpb : st.player_lamports + st.game_account.bet_amount < U64_MOD := by omega
  have hpa2 : st.player_lamports + st.game_account.bet_amount +
      (st.game_account.bet_amount * st.game_account.num_chests -
        st.game_account.bet_amount) < U64_MOD := by omega
  rw [hmp]
  simp only [play_chest_game_callback, checked_mul, checked_sub, lamports_sub, lamports_add,
    hp]
  simp [hmul, hesc, hpb, hble, hwpos, htr', hpa2]
  omega

/-- C1 witness for the amended theorem: bet 10 000 000, 3 chests,
escrow 10 000 000, Treasury 20 000 000; the winning callback pays the
player 30 000 000 in total and completes the game. -/
theorem c1_witness :
    play_chest_game_callback
      { game_account := { player := 7, bet_amount := 10000000, num_chests := 3,
                          status := 1, created_at := 0, computation_offset := 0, bump := 0 },
        game_lamports := 10000000, treasury_lamports := 20000000, player_lamports := 0 }
      (.ok true 1) =
      .ok ({ game_account := { player := 7, bet_amount := 10000000, num_chests := 3,
                               status := 2, created_at := 0, computation_offset := 0,
                               bump := 0 },
             game_lamports := 0, treasury_lamports := 0, player_lamports := 30000000 },
          { player := 7, player_won := true, winning_chest := 1, num_chests := 3,
            bet_amount := 10000000, payout := 30000000 }) :=
  c1_win_payout _ 1 rfl (by decide) (by decide) (by decide) (by decide) (by decide)
    (by decide) (by decide)

/-- C2: for a Pending record (whose escrow holds the bet and with room
in the Treasury's u64 balance), a losing callback moves exactly
bet_amount from the game escrow to the Treasury, leaves the player's
balance untouched, and sets the status to Completed (event payout 0). -/
theorem c2_lose_settlement (st : CallbackAccounts) (wc : Nat)
    (hp : st.game_account.status = GameStatus.pending.toU8)
    (hesc : st.game_account.bet_amount ≤ st.game_lamports)
    (htr : st.treasury_lamports + st.game_account.bet_amount < U64_MOD) :
    play_chest_game_callback st (.ok false wc) =
      .ok ({ st with
              game_lamports := st.game_lamports - st.game_account.bet_amount
              treasury_lamports := st.treasury_lamports + st.game_account.bet_amount
              game_account := { st.game_account with status := GameStatus.completed.toU8 } },
          { player := st.game_account.player, player_won := false, winning_chest := wc,
            num_chests := st.game_account.num_chests,
            bet_amount := st.game_account.bet_amount, payout := 0 }) := by
  simp [play_chest_game_callback, lamports_sub, lamports_add, hp, hesc, htr]

/-- C2 witness: bet 10 000 000, 3 chests; the losing callback credits
the Treasury with the bet, returns nothing to the player and completes
the game. -/
theorem c2_witness :
    play_chest_game_callback
      { game_account := { player := 7, bet_amount := 10000000, num_chests := 3,
                          status := 1, created_at := 0, computation_offset := 0, bump := 0 },
        game_lamports := 10000000, treasury_lamports := 20000000, player_lamports := 5 }
      (.ok false 2) =
      .ok ({ game_account := { player := 7, bet_amount := 10000000, num_chests := 3,
                               status := 2, created_at := 0, computation_offset := 0,
                               bump := 0 },
             game_lamports := 0, treasury_lamports := 30000000, player_lamports := 5 },
          { player := 7, player_won := false, winning_chest := 2, num_chests := 3,
            bet_amount := 10000000, payout := 0 }) :=
  c2_lose_settlement _ 2 rfl (by decide) (by decide)

/-- C6: cancelling a Pending game (by its player) fails with
GameNotTimedOut whenever now - created_at ≤ 60; once
now - created_at > 60 (and the escrow holds the bet, with room in the
player's u64 balance) it moves exactly bet_amount from the game escrow
back to the player and sets the status to Cancelled. -/
theorem c6_timeout_refund :
    (∀ st now, st.game_account.player = st.player →
        st.game_account.status = GameStatus.pending.toU8 →
        now - st.game_account.created_at ≤ 60 →
        cancel_game st now = .error (.code .GameNotTimedOut)) ∧
    (∀ st now, st.game_account.player = st.player →
        st.game_account.status = GameStatus.pending.toU8 →
        60 < now - st.game_account.created_at →
        st.game_account.bet_amount ≤ st.game_lamports →
        st.player_lamports + st.game_account.bet_amount < U64_MOD →
        cancel_game st now =
          .ok ({ st with
                  game_lamports := st.game_lamports - st.game_account.bet_amount
                  player_lamports := st.player_lamports + st.game_account.bet_amount
                  game_account :=
                    { st.game_account with status := GameStatus.cancelled.toU8 } },
              { player := st.game_account.player,
                bet_amount := st.game_account.bet_amount })) := by
  constructor
  · intro st now hpl hp ht
    simp only [cancel_game]
    rw [if_neg (not_not_intro hpl), if_neg (not_not_intro hp), if_pos (not_lt.mpr ht)]
  · intro st now hpl hp ht hesc hov
    simp [cancel_game, hpl, hp, ht, hesc, hov, lamports_sub, lamports_add]

/-- C6 witness: with created_at 0, cancelling at time 60 fails with
GameNotTimedOut, and cancelling at time 61 refunds the 10 000 000
lamport bet and cancels the game. -/
theorem c6_witness :
    cancel_game
      { player := 7, player_lamports := 0,
        game_account := { player := 7, bet_amount := 10000000, num_chests := 3,
                          status := 1, created_at := 0, computation_offset := 0, bump := 0 },
        game_lamports := 10000000 } 60 = .error (.code .GameNotTimedOut) ∧
    cancel_game
      { player := 7, player_lamports := 0,
        game_account := { player := 7, bet_amount := 10000000, num_chests := 3,
                          status := 1, created_at := 0, computation_offset := 0, bump := 0 },
        game_lamports := 10000000 } 61 =
      .ok ({ player := 7, player_lamports := 10000000,
             game_account := { player := 7, bet_amount := 10000000, num_chests := 3,
                               status := 3, created_at := 0, computation_offset := 0,
                               bump := 0 },
             game_lamports := 0 },
          { player := 7, bet_amount := 10000000 }) :=
  ⟨c6_timeout_refund.1 _ 60 rfl rfl (by decide),
   c6_timeout_refund.2 _ 61 rfl rfl (by decide) (by decide) (by decide)⟩

/-- C3: a GameRecord whose status is not Pending (in particular one
already Completed or Cancelled) rejects any further settlement or
cancellation: a verified callback fails with GameNotPending, and a
cancel by the game's player fails with GameNotPending; the error aborts
the transaction, so no funds move and no state changes. -/
theorem c3_settle_once :
    (∀ st w c, st.game_account.status ≠ GameStatus.pending.toU8 →
        play_chest_game_callback st (.ok w c) = .error (.code .GameNotPending)) ∧
    (∀ st now, st.game_account.player = st.player →
        st.game_account.status ≠ GameStatus.pending.toU8 →
        cancel_game st now = .error (.code .GameNotPending)) := by
  constructor
  · intro st w c h
    simp only [play_chest_game_callback, if_pos h]
  · intro st now hp h
    simp only [cancel_game]
    rw [if_neg (not_not_intro hp), if_pos h]

/-- C3 witness: a Completed record (status 2) rejects a second verified
callback and a cancel with GameNotPending. -/
theorem c3_witness :
    play_chest_game_callback
      { game_account := { player := 7, bet_amount := 10000000, num_chests := 3,
                          status := 2, created_at := 0, computation_offset := 0, bump := 0 },
        game_lamports := 0, treasury_lamports := 0, player_lamports := 0 }
      (.ok true 1) = .error (.code .GameNotPending) ∧
    cancel_game
      { player := 7, player_lamports := 0,
        game_account := { player := 7, bet_amount := 10000000, num_chests := 3,
                          status := 2, created_at := 0, computation_offset := 0, bump := 0 },
        game_lamports := 0 } 1000 = .error (.code .GameNotPending) :=
  ⟨c3_settle_once.1 _ true 1 (by decide), c3_settle_once.2 _ 1000 rfl (by decide)⟩

/-- C4: in the callback, a verification failure returns
AbortedComputation, and an overflowing bet_amount * num_chests returns
Overflow; both are returned before any lamport movement or write to the
game account, and the aborted transaction leaves the record Pending and
unmutated. -/
theorem c4_error_paths :
    (∀ st, play_chest_game_callback st .err = .error (.code .AbortedComputation)) ∧
    (∀ st c, st.game_account.status = GameStatus.pending.toU8 →
        U64_MOD ≤ st.game_account.bet_amount * st.game_account.num_chests →
        play_chest_game_callback st (.ok true c) = .error (.code .Overflow)) := by
  constructor
  · intro st; rfl
  · intro st c hp hov
    simp only [play_chest_game_callback, checked_mul]
    rw [if_neg (not_not_intro hp), if_pos trivial, if_neg (not_lt.mpr hov)]

/-- C4 witness: a concrete verification failure yields
AbortedComputation, and a pending game with bet 2 ^ 63 and 2 chests
yields Overflow on a winning callback. -/
theorem c4_witness :
    play_chest_game_callback
      { game_account := { player := 7, bet_amount := 10000000, num_chests := 3,
                          status := 1, created_at := 0, computation_offset := 0, bump := 0 },
        game_lamports := 10000000, treasury_lamports := 0, player_lamports := 0 }
      .err = .error (.code .AbortedComputation) ∧
    play_chest_game_callback
      { game_account := { player := 7, bet_amount := 2 ^ 63, num_chests := 2,
                          status := 1, created_at := 0, computation_offset := 0, bump := 0 },
        game_lamports := 2 ^ 63, treasury_lamports := 2 ^ 63, player_lamports := 0 }
      (.ok true 0) = .error (.code .Overflow) :=
  ⟨c4_error_paths.1 _, c4_error_paths.2 _ 0 rfl (by norm_num [U64_MOD])⟩

/-- C5: submit rejects num_chests outside [2,5] with InvalidChestCount;
with num_chests valid it rejects bet_amount below MIN_BET with
BetTooSmall; with both valid it rejects a Pending record with
GameAlreadyActive.  All three checks run before the escrow transfer and
the state write, and the error aborts the transaction. -/
theorem c5_submit_validation :
    (∀ st off nc b now bp, ¬ (2 ≤ nc ∧ nc ≤ 5) →
        play_chest_game st off nc b now bp = .error (.code .InvalidChestCount)) ∧
    (∀ st off nc b now bp, 2 ≤ nc ∧ nc ≤ 5 → b < MIN_BET →
        play_chest_game st off nc b now bp = .error (.code .BetTooSmall)) ∧
    (∀ st off nc b now bp, 2 ≤ nc ∧ nc ≤ 5 → MIN_BET ≤ b →
        st.game_account.status = GameStatus.pending.toU8 →
        play_chest_game st off nc b now bp = .error (.code .GameAlreadyActive)) := by
  refine ⟨?_, ?_, ?_⟩
  · intro st off nc b now bp hnc
    simp only [play_chest_game, if_pos hnc]
  · intro st off nc b now bp hnc hb
    simp only [play_chest_game]
    rw [if_neg (not_not_intro hnc), if_pos (not_le.mpr hb)]
  · intro st off nc b now bp hnc hb hp
    simp only [play_chest_game]
    rw [if_neg (not_not_intro hnc), if_neg (not_not_intro hb),
      if_pos (by simp [hp, GameStatus.toU8])]

/-- C5 witness: num_chests 6 is rejected with InvalidChestCount, a bet
below 10 000 000 lamports with BetTooSmall, and a submit over a Pending
record with GameAlreadyActive. -/
theorem c5_witness :
    play_chest_game
      { player := 7, player_lamports := 20000000,
        game_account := { player := 7, bet_amount := 0, num_chests := 0,
                          status := 0, created_at := 0, computation_offset := 0, bump := 0 },
        game_lamports := 0 } 1 6 10000000 0 0 = .error (.code .InvalidChestCount) ∧
    play_chest_game
      { player := 7, player_lamports := 20000000,
        game_account := { player := 7, bet_amount := 0, num_chests := 0,
                          status := 0, created_at := 0, computation_offset := 0, bump := 0 },
        game_lamports := 0 } 1 3 9999999 0 0 = .error (.code .BetTooSmall) ∧
    play_chest_game
      { player := 7, player_lamports := 20000000,
        game_account := { player := 7, bet_amount := 10000000, num_chests := 3,
                          status := 1, created_at := 0, computation_offset := 0, bump := 0 },
        game_lamports := 10000000 } 1 3 10000000 0 0 = .error (.code .GameAlreadyActive) :=
  ⟨c5_submit_validation.1 _ 1 6 10000000 0 0 (by decide),
   c5_submit_validation.2.1 _ 1 3 9999999 0 0 (by decide) (by decide),
   c5_submit_validation.2.2 _ 1 3 10000000 0 0 (by decide) (by decide) rfl⟩

/-- C7: a cancel whose player account is not the player recorded in the
GameAccount fails with NotGamePlayer (the CancelGame account constraint),
before any other check or any state change. -/
theorem c7_not_game_player (st : CancelAccounts) (now : Int)
    (h : st.game_account.player ≠ st.player) :
    cancel_game st now = .error (.code .NotGamePlayer) := by
  simp only [cancel_game, if_pos h]

/-- C7 witness: cancelling with a player account (key 1) that differs
from the record's player (key 2) fails with NotGamePlayer. -/
theorem c7_witness :
    cancel_game
      { player := 1, player_lamports := 0,
        game_account := { player := 2, bet_amount := 10000000, num_chests := 3,
                          status := 1, created_at := 0, computation_offset := 0, bump := 0 },
        game_lamports := 10000000 } 1000 = .error (.code .NotGamePlayer) :=
  c7_not_game_player _ 1000 (by decide)

/-- C8: for num_chests in [2,5] and any choice and RNG draw, the
FairDraw circuit's winning chest lies in [0, num_chests) (the modulo
fallback guarantees this whatever gen_integer_in_range returned) and
player_won is true exactly when the decrypted choice equals the winning
chest. -/
theorem c8_fair_draw (choice nc rng : Nat) (h2 : 2 ≤ nc) (h5 : nc ≤ 5) :
    (circuits.play_chest_game choice nc rng).2 < nc ∧
    ((circuits.play_chest_game choice nc rng).1 = true ↔
      choice = (circuits.play_chest_game choice nc rng).2) := by
  have hlt : rng % nc < nc := Nat.mod_lt _ (by omega)
  have h256 : (rng % nc) % 256 = rng % nc := Nat.mod_eq_of_lt (by omega)
  refine ⟨?_, ?_⟩
  · simpa [circuits.play_chest_game, h256] using hlt
  · simp [circuits.play_chest_game]

/-- C8 witness: with 3 chests, choice 1 and raw draw 7, the winning
chest is 1 (in range) and the player wins. -/
theorem c8_witness :
    (circuits.play_chest_game 1 3 7).2 < 3 ∧
    ((circuits.play_chest_game 1 3 7).1 = true ↔
      1 = (circuits.play_chest_game 1 3 7).2) :=
  c8_fair_draw 1 3 7 (by decide) (by decide)

/-- C9: every successful callback and every successful cancel leaves
the GameAccount fields player, bet_amount, num_chests, created_at,
computation_offset (the request correlation id) and bump exactly as
submit wrote them, mutating only the status field (to Completed resp.
Cancelled) besides the lamport balances; a failed call aborts the
transaction and changes nothing. -/
theorem c9_only_status_mutated :
    (∀ st out st2 ev, play_chest_game_callback st out = .ok (st2, ev) →
        st2.game_account.player = st.game_account.player ∧
        st2.game_account.bet_amount = st.game_account.bet_amount ∧
        st2.game_account.num_chests = st.game_account.num_chests ∧
        st2.game_account.created_at = st.game_account.created_at ∧
        st2.game_account.computation_offset = st.game_account.computation_offset ∧
        st2.game_account.bump = st.game_account.bump ∧
        st2.game_account.status = GameStatus.completed.toU8) ∧
    (∀ st now st2 ev, cancel_game st now = .ok (st2, ev) →
        st2.game_account.player = st.game_account.player ∧
        st2.game_account.bet_amount = st.game_account.bet_amount ∧
        st2.game_account.num_chests = st.game_account.num_chests ∧
        st2.game_account.created_at = st.game_account.created_at ∧
        st2.game_account.computation_offset = st.game_account.computation_offset ∧
        st2.game_account.bump = st.game_account.bump ∧
        st2.game_account.status = GameStatus.cancelled.toU8) := by
  constructor
  · intro st out st2 ev h
    unfold play_chest_game_callback at h
    repeat' split at h
    all_goals simp_all
    all_goals (obtain ⟨hst, hev⟩ := h; subst hst; simp)
  · intro st now st2 ev h
    unfold cancel_game at h
    repeat' split at h
    all_goals simp_all
    all_goals (obtain ⟨hst, hev⟩ := h; subst hst; simp)

/-- C9 witness: a concrete successful losing settlement and a concrete
successful cancel both set only the status field (to Completed resp.
Cancelled), as instances of the frame theorem. -/
theorem c9_witness :
    ({ game_account := { player := 7, bet_amount := 10000000, num_chests := 3,
                         status := 2, created_at := 5, computation_offset := 42, bump := 9 },
       game_lamports := 0, treasury_lamports := 10000000,
       player_lamports := 0 } : CallbackAccounts).game_account.status =
        GameStatus.completed.toU8 ∧
    ({ player := 7, player_lamports := 10000000,
       game_account := { player := 7, bet_amount := 10000000, num_chests := 3,
                         status := 3, created_at := 0, computation_offset := 42, bump := 9 },
       game_lamports := 0 } : CancelAccounts).game_account.status =
        GameStatus.cancelled.toU8 := by
  constructor
  · exact (c9_only_status_mutated.1
      { game_account := { player := 7, bet_amount := 10000000, num_chests := 3,
                          status := 1, created_at := 5, computation_offset := 42, bump := 9 },
        game_lamports := 10000000, treasury_lamports := 0, player_lamports := 0 }
      (.ok false 2)
      { game_account := { player := 7, bet_amount := 10000000, num_chests := 3,
                          status := 2, created_at := 5, computation_offset := 42, bump := 9 },
        game_lamports := 0, treasury_lamports := 10000000, player_lamports := 0 }
      { player := 7, player_won := false, winning_chest := 2, num_chests := 3,
        bet_amount := 10000000, payout := 0 } rfl).2.2.2.2.2.2
  · exact (c9_only_status_mutated.2
      { player := 7, player_lamports := 0,
        game_account := { player := 7, bet_amount := 10000000, num_chests := 3,
                          status := 1, created_at := 0, computation_offset := 42, bump := 9 },
        game_lamports := 10000000 } 61
      { player := 7, player_lamports := 10000000,
        game_account := { player := 7, bet_amount := 10000000, num_chests := 3,
                          status := 3, created_at := 0, computation_offset := 42, bump := 9 },
        game_lamports := 0 }
      { player := 7, bet_amount := 10000000 } rfl).2.2.2.2.2.2

/-- Inversion: checked_mul returns some r iff the product fits in u64. -/
theorem checked_mul_some {a b r : Nat} :
    checked_mul a b = some r ↔ a * b < U64_MOD ∧ r = a * b := by
  unfold checked_mul
  split
  all_goals simp_all
  all_goals omega

/-- Inversion: checked_sub returns some r iff no underflow occurs. -/
theorem checked_sub_some {a b r : Nat} :
    checked_sub a b = some r ↔ b ≤ a ∧ r = a - b := by
  unfold checked_sub
  split
  all_goals simp_all
  all_goals omega

/-- Inversion: a lamport debit succeeds iff the balance suffices. -/
theorem lamports_sub_ok {a b r : Nat} :
    lamports_sub a b = .ok r ↔ b ≤ a ∧ r = a - b := by
  unfold lamports_sub
  split
  all_goals simp_all
  all_goals omega

/-- Inversion: a lamport credit succeeds iff the u64 balance does not overflow. -/
theorem lamports_add_ok {a b r : Nat} :
    lamports_add a b = .ok r ↔ a + b < U64_MOD ∧ r = a + b := by
  unfold lamports_add
  split
  all_goals simp_all
  all_goals omega

/-- C10: in the winning branch, with num_chests ≥ 2 (established at
submission) and bet_amount ≥ MIN_BET, payout = bet_amount * num_chests
satisfies payout ≥ 2 * bet_amount, so checked_sub payout bet_amount
never returns none and the net winnings payout - bet_amount are
strictly positive; hence every successful winning settlement strictly
decreases the Treasury balance, i.e. the Treasury-to-player transfer is
always executed on a win. -/
theorem c10_win_sub_never_fails :
    (∀ b c, 2 ≤ c → MIN_BET ≤ b → b * c < U64_MOD →
        checked_sub (b * c) b = some (b * c - b) ∧ 2 * b ≤ b * c ∧ 0 < b * c - b) ∧
    (∀ st wc st2 ev, 2 ≤ st.game_account.num_chests →
        MIN_BET ≤ st.game_account.bet_amount →
        play_chest_game_callback st (.ok true wc) = .ok (st2, ev) →
        st2.treasury_lamports < st.treasury_lamports) := by
  constructor
  · intro b c hc hb hmul
    have hb2 : 10000000 ≤ b := hb
    have h2b : b * 2 ≤ b * c := Nat.mul_le_mul (le_refl _) hc
    refine ⟨?_, by omega, by omega⟩
    rw [checked_sub_some]
    omega
  · intro st wc st2 ev hc hb h
    have hb2 : 10000000 ≤ st.game_account.bet_amount := hb
    have h2b : st.game_account.bet_amount * 2 ≤
        st.game_account.bet_amount * st.game_account.num_chests :=
      Nat.mul_le_mul (le_refl _) hc
    have hwpos : 0 < st.game_account.bet_amount * st.game_account.num_chests -
        st.game_account.bet_amount := by omega
    unfold play_chest_game_callback at h
    repeat' split at h
    all_goals simp_all [checked_mul_some, checked_sub_some, lamports_sub_ok, lamports_add_ok]
    all_goals (obtain ⟨hst, hev⟩ := h; subst hst)
    all_goals simp
    all_goals omega

/-- C10 witness: with bet 10 000 000 and 3 chests, checked_sub of the
payout never fails, winnings are positive, and a concrete successful
winning settlement leaves the Treasury strictly below its prior
balance. -/
theorem c10_witness :
    (checked_sub (10000000 * 3) 10000000 = some (10000000 * 3 - 10000000) ∧
      2 * 10000000 ≤ 10000000 * 3 ∧ 0 < 10000000 * 3 - 10000000) ∧
    (0 : Nat) < 20000000 :=
  ⟨c10_win_sub_never_fails.1 10000000 3 (by decide) (by decide) (by decide),
   by
    have h := c10_win_sub_never_fails.2
      { game_account := { player := 7, bet_amount := 10000000, num_chests := 3,
                          status := 1, created_at := 0, computation_offset := 0, bump := 0 },
        game_lamports := 10000000, treasury_lamports := 20000000, player_lamports := 0 }
      1
      { game_account := { player := 7, bet_amount := 10000000, num_chests := 3,
                          status := 2, created_at := 0, computation_offset := 0, bump := 0 },
        game_lamports := 0, treasury_lamports := 0, player_lamports := 30000000 }
      { player := 7, player_won := true, winning_chest := 1, num_chests := 3,
        bet_amount := 10000000, payout := 30000000 }
      (by decide) (by decide) rfl
    simp at h
    omega⟩

end VeiledChests
